import Mathlib

/-!
# GraalObjectTemplate: the native side of object templates

A shallow embedding of `graal_object_template.cc`.  Every method of
`GraalObjectTemplate` becomes a function on an explicit isolate state.  The
state carries the native wrappers (a heap of `GraalHandleContent`), the
callback registry, and a log of everything that leaves the method: boundary
calls, wrapper duplications, weakenings, registry stores and base `Set` calls.
The diagnostic channel (stderr) is logged separately.

Helpers of the repository that live in other files (the isolate, the handle
layer, the template base class, the call transport) are modelled from the
specification and say so in their doc comments.  Enumerator values of `v8.h`
are taken as parameters.
-/

namespace Graal

/-- A reference into the managed runtime (`jobject`). -/
abbrev JObject := Nat

/-- The address of a native wrapper (`GraalHandleContent*`, `GraalValue*`, ...). -/
abbrev Ptr := Nat

/-- A `v8::Local<T>`: either empty or the address of a wrapper. -/
abbrev Local := Option Ptr

/-- A raw native function pointer (an address). -/
abbrev FunctionPointer := Nat

/-- The underlying integer of a `v8::PropertyAttribute` bitmask. -/
abbrev PropertyAttribute := Int

/-- The underlying integer of a `v8::PropertyHandlerFlags` value. -/
abbrev PropertyHandlerFlags := Nat

/-- The underlying integer of a `v8::AccessControl` value. -/
abbrev AccessControl := Nat

/-- The C cast `(jlong) p` of a pointer: the address read as a signed 64-bit integer. -/
def toJlong (p : FunctionPointer) : Int :=
  if p % 2 ^ 64 < 2 ^ 63 then ((p % 2 ^ 64 : Nat) : Int) else ((p % 2 ^ 64 : Nat) : Int) - 2 ^ 64

/-- The opcodes of `GraalAccessMethod` used by `graal_object_template.cc`. -/
inductive GraalAccessMethod where
  | object_template_new
  | object_template_new_instance
  | object_template_set_accessor
  | object_template_set_named_property_handler
  | object_template_set_handler
  | object_template_set_call_as_function_handler
  deriving DecidableEq, Repr

/-- One positional argument of a boundary call. -/
inductive JArg where
  /-- A `jobject`; `none` is `NULL`. -/
  | object (o : Option JObject)
  /-- A `jlong`. -/
  | long (v : Int)
  /-- A `jint`. -/
  | int (v : Int)
  /-- A `jboolean`. -/
  | bool (b : Bool)
  deriving DecidableEq, Repr

/-- The value handed to the template base `Set`. -/
inductive V8Data where
  /-- The result of `v8::Integer::New(isolate, n)`. -/
  | integer (n : Int)
  /-- Any other value, by wrapper address. -/
  | handle (p : Ptr)
  deriving DecidableEq, Repr

/-- What a method does that is visible outside of it, in program order. -/
inductive Event where
  /-- A boundary call with its opcode and positional arguments. -/
  | jni (method : GraalAccessMethod) (args : List JArg)
  /-- The call `src->Copy(global)` returning the wrapper `dst`. -/
  | Copy (src : Ptr) (global : Bool) (dst : Ptr)
  /-- The call `p->MakeWeak()`. -/
  | MakeWeak (p : Ptr)
  /-- The call `NextFunctionTemplateID()` returning `id`. -/
  | NextFunctionTemplateID (id : Int)
  /-- The call `SetFunctionTemplateData(id, data)`. -/
  | SetFunctionTemplateData (id : Int) (data : Ptr)
  /-- The call `SetFunctionTemplateCallback(id, callback)`. -/
  | SetFunctionTemplateCallback (id : Int) (callback : FunctionPointer)
  /-- The base call `tmpl->Set(key, value, attributes)`. -/
  | Set (tmpl : Ptr) (key : Ptr) (value : V8Data) (attributes : PropertyAttribute)
  deriving DecidableEq, Repr

/-- A native wrapper.  The class hierarchy below `GraalHandleContent` is
flattened: `internal_field_count_` is the member of `GraalObjectTemplate` and is
only read for object templates. -/
structure GraalHandleContent where
  /-- The managed reference of the wrapper (`GetJavaObject()`). -/
  java_object : JObject
  /-- Whether the wrapper retains its managed reference weakly. -/
  weak : Bool
  /-- The member `internal_field_count_` of `GraalObjectTemplate`. -/
  internal_field_count_ : Int
  deriving DecidableEq, Repr

/-- The state of one isolate together with the wrappers that belong to it. -/
structure GraalIsolate where
  /-- The wrappers, by address.  Addresses below `next_ptr` are allocated. -/
  heap : Ptr → GraalHandleContent
  /-- The address the next wrapper is allocated at. -/
  next_ptr : Ptr
  /-- The next managed reference handed out when a reference is duplicated. -/
  next_ref : JObject
  /-- The counter behind `NextFunctionTemplateID`. -/
  function_template_count : Int
  /-- The registry store of data handles, by id. -/
  function_template_data : Int → Option Ptr
  /-- The registry store of callbacks, by id. -/
  function_template_callbacks : Int → Option FunctionPointer
  /-- The shared wrapper of `undefined` (`GetUndefined()`). -/
  undefined_instance : Ptr
  /-- The key under which the internal field count is published (`InternalFieldCountKey()`). -/
  internal_field_count_key : Ptr
  /-- The managed runtime: the reference it answers an object-returning
  boundary call with, given how many events preceded the call. -/
  runtime : Nat → GraalAccessMethod → List JArg → JObject
  /-- Everything done so far, oldest first. -/
  trace : List Event
  /-- The lines written to the diagnostic channel, oldest first. -/
  stderr : List String

/-- Overwrite one wrapper of the heap. -/
def writeHeap (heap : Ptr → GraalHandleContent) (p : Ptr) (c : GraalHandleContent) :
    Ptr → GraalHandleContent :=
  fun q => if q = p then c else heap q

/-- The expression `new T(isolate, java_object)`: a wrapper at a new address. -/
def allocate (isolate : GraalIsolate) (c : GraalHandleContent) : Ptr × GraalIsolate :=
  (isolate.next_ptr,
    { isolate with
      heap := writeHeap isolate.heap isolate.next_ptr c
      next_ptr := isolate.next_ptr + 1 })

/-- The call `fprintf(stderr, message)`. -/
def fprintf_stderr (isolate : GraalIsolate) (message : String) : GraalIsolate :=
  { isolate with stderr := isolate.stderr ++ [message] }

/-- Modelled from the spec: the transport behind `JNI_CALL` (declared with the
isolate, not in this file).  One synchronous call identified by its opcode,
carrying a fixed positional argument list and returning one object reference. -/
def JNI_CALL (isolate : GraalIsolate) (method : GraalAccessMethod) (args : List JArg) :
    JObject × GraalIsolate :=
  (isolate.runtime isolate.trace.length method args,
    { isolate with trace := isolate.trace ++ [Event.jni method args] })

/-- Modelled from the spec: the transport behind `JNI_CALL_VOID` (declared with
the isolate, not in this file).  One synchronous call identified by its opcode,
carrying a fixed positional argument list and returning nothing. -/
def JNI_CALL_VOID (isolate : GraalIsolate) (method : GraalAccessMethod) (args : List JArg) :
    GraalIsolate :=
  { isolate with trace := isolate.trace ++ [Event.jni method args] }

/-- The call `p->GetJavaObject()`. -/
def GetJavaObject (isolate : GraalIsolate) (p : Ptr) : JObject :=
  (isolate.heap p).java_object

namespace GraalIsolate

/-- Modelled from the spec: `GraalIsolate::NextFunctionTemplateID` (defined with
the isolate, not in this file) returns a fresh integer, strictly increasing and
never reused within the isolate. -/
def NextFunctionTemplateID (isolate : GraalIsolate) : Int × GraalIsolate :=
  (isolate.function_template_count,
    { isolate with
      function_template_count := isolate.function_template_count + 1
      trace := isolate.trace ++ [Event.NextFunctionTemplateID isolate.function_template_count] })

/-- Modelled from the spec: `GraalIsolate::SetFunctionTemplateData` (defined
with the isolate, not in this file) is the store of data handles keyed by id. -/
def SetFunctionTemplateData (isolate : GraalIsolate) (id : Int) (data : Ptr) : GraalIsolate :=
  { isolate with
    function_template_data := fun i => if i = id then some data else isolate.function_template_data i
    trace := isolate.trace ++ [Event.SetFunctionTemplateData id data] }

/-- Modelled from the spec: `GraalIsolate::SetFunctionTemplateCallback` (defined
with the isolate, not in this file) is the store of callbacks keyed by id. -/
def SetFunctionTemplateCallback (isolate : GraalIsolate) (id : Int)
    (callback : FunctionPointer) : GraalIsolate :=
  { isolate with
    function_template_callbacks :=
      fun i => if i = id then some callback else isolate.function_template_callbacks i
    trace := isolate.trace ++ [Event.SetFunctionTemplateCallback id callback] }

/-- Modelled from the spec: `GraalIsolate::GetUndefined` (defined with the
isolate, not in this file) returns the isolate's shared undefined singleton. -/
def GetUndefined (isolate : GraalIsolate) : Ptr :=
  isolate.undefined_instance

/-- Modelled from the spec: `GraalIsolate::InternalFieldCountKey` (defined with
the isolate, not in this file) returns the reserved key of the template
property that mirrors the internal field count. -/
def InternalFieldCountKey (isolate : GraalIsolate) : Ptr :=
  isolate.internal_field_count_key

end GraalIsolate

/-- Modelled from the spec: `v8::Undefined(isolate)` (defined outside this file)
yields a non-empty handle to the isolate's undefined sentinel, given here by
the wrapper it points to. -/
def Undefined (isolate : GraalIsolate) : Ptr :=
  isolate.GetUndefined

namespace Integer

/-- Modelled from the spec: `v8::Integer::New(isolate, n)` (defined outside this
file) yields the value handle of the integer `n`, the value that is republished
as template metadata. -/
def New (_isolate : GraalIsolate) (n : Int) : V8Data :=
  V8Data.integer n

end Integer

namespace GraalHandleContent

/-- Modelled from the spec: `GraalHandleContent::Copy` (defined with the handle
layer, not in this file) produces a new wrapper whose managed reference is a
freshly obtained duplicate of the source reference. -/
def Copy (isolate : GraalIsolate) (p : Ptr) (global : Bool) : Ptr × GraalIsolate :=
  (isolate.next_ptr,
    { isolate with
      heap := writeHeap isolate.heap isolate.next_ptr
        { isolate.heap p with java_object := isolate.next_ref, weak := false }
      next_ptr := isolate.next_ptr + 1
      next_ref := isolate.next_ref + 1
      trace := isolate.trace ++ [Event.Copy p global isolate.next_ptr] })

/-- Modelled from the spec: `GraalHandleContent::MakeWeak` (defined with the
handle layer, not in this file) turns the wrapper's retention of its managed
reference from strong to weak. -/
def MakeWeak (isolate : GraalIsolate) (p : Ptr) : GraalIsolate :=
  { isolate with
    heap := writeHeap isolate.heap p { isolate.heap p with weak := true }
    trace := isolate.trace ++ [Event.MakeWeak p] }

end GraalHandleContent

namespace GraalTemplate

/-- Modelled from the spec: `GraalTemplate::Set` (defined with the template
base class, not in this file) stashes `value` under `key` with the given
attributes as an ordinary template property. -/
def Set (isolate : GraalIsolate) (self : Ptr) (key : Ptr) (value : V8Data)
    (attributes : PropertyAttribute) : GraalIsolate :=
  { isolate with trace := isolate.trace ++ [Event.Set self key value attributes] }

end GraalTemplate

/-- The fields of `v8::NamedPropertyHandlerConfiguration` that the file reads. -/
structure NamedPropertyHandlerConfiguration where
  getter : FunctionPointer
  setter : FunctionPointer
  query : FunctionPointer
  deleter : FunctionPointer
  enumerator : FunctionPointer
  data : Local
  flags : PropertyHandlerFlags
  deriving DecidableEq, Repr

/-- The fields of `v8::IndexedPropertyHandlerConfiguration` that the file reads. -/
structure IndexedPropertyHandlerConfiguration where
  getter : FunctionPointer
  setter : FunctionPointer
  query : FunctionPointer
  deleter : FunctionPointer
  enumerator : FunctionPointer
  data : Local
  flags : PropertyHandlerFlags
  deriving DecidableEq, Repr

namespace GraalObjectTemplate

/-- The text `GraalObjectTemplate::New` writes for a non-empty constructor. -/
def constructorNotSupported : String :=
  "GraalObjectTemplate::New - constructor argument is not supported yet!\n"

/-- The function `GraalObjectTemplate::New`. -/
def New (isolate : GraalIsolate) (constructor : Local) : Local × GraalIsolate :=
  let isolate1 :=
    if !constructor.isNone then fprintf_stderr isolate constructorNotSupported else isolate
  let call := JNI_CALL isolate1 GraalAccessMethod.object_template_new []
  let java_object_template := call.1
  let made := allocate call.2
    { java_object := java_object_template, weak := false, internal_field_count_ := 0 }
  (some made.1, made.2)

/-- The function `GraalObjectTemplate::SetInternalFieldCount`; `DontEnum` is the
enumerator `v8::PropertyAttribute::DontEnum`. -/
def SetInternalFieldCount (DontEnum : PropertyAttribute) (isolate : GraalIsolate)
    (self : Ptr) (count : Int) : GraalIsolate :=
  let isolate1 :=
    { isolate with
      heap := writeHeap isolate.heap self { isolate.heap self with internal_field_count_ := count } }
  let value := Integer.New isolate1 count
  GraalTemplate.Set isolate1 self isolate1.InternalFieldCountKey value DontEnum

/-- The function `GraalObjectTemplate::SetAccessor`. -/
def SetAccessor (isolate : GraalIsolate) (self : Ptr) (name : Ptr)
    (getter setter : FunctionPointer) (data : Local) (_settings : AccessControl)
    (attr : PropertyAttribute) (signature : Local) : GraalIsolate :=
  let java_name := GetJavaObject isolate name
  let java_getter := toJlong getter
  let java_setter := toJlong setter
  let data1 : Ptr :=
    match data with
    | none => Undefined isolate
    | some p => p
  let java_data := GetJavaObject isolate data1
  let java_signature := signature.map (GetJavaObject isolate)
  let java_attrs := attr
  JNI_CALL_VOID isolate GraalAccessMethod.object_template_set_accessor
    [JArg.object (some (GetJavaObject isolate self)), JArg.object (some java_name),
      JArg.long java_getter, JArg.long java_setter, JArg.object (some java_data),
      JArg.object java_signature, JArg.int java_attrs]

/-- The function `GraalObjectTemplate::SetNamedPropertyHandler`. -/
def SetNamedPropertyHandler (isolate : GraalIsolate) (self : Ptr)
    (getter setter query deleter enumerator : FunctionPointer) (data : Local) : GraalIsolate :=
  let java_data := data.map (GetJavaObject isolate)
  JNI_CALL_VOID isolate GraalAccessMethod.object_template_set_named_property_handler
    [JArg.object (some (GetJavaObject isolate self)), JArg.long (toJlong getter),
      JArg.long (toJlong setter), JArg.long (toJlong query), JArg.long (toJlong deleter),
      JArg.long (toJlong enumerator), JArg.object java_data]

/-- The overload `GraalObjectTemplate::SetHandler(const NamedPropertyHandlerConfiguration&)`;
`kOnlyInterceptStrings` is the enumerator `v8::PropertyHandlerFlags::kOnlyInterceptStrings`. -/
def SetHandler_NamedPropertyHandlerConfiguration (kOnlyInterceptStrings : PropertyHandlerFlags)
    (isolate : GraalIsolate) (self : Ptr)
    (configuration : NamedPropertyHandlerConfiguration) : GraalIsolate :=
  let java_data := configuration.data.map (GetJavaObject isolate)
  JNI_CALL_VOID isolate GraalAccessMethod.object_template_set_handler
    [JArg.object (some (GetJavaObject isolate self)), JArg.long (toJlong configuration.getter),
      JArg.long (toJlong configuration.setter), JArg.long (toJlong configuration.query),
      JArg.long (toJlong configuration.deleter), JArg.long (toJlong configuration.enumerator),
      JArg.object java_data, JArg.bool true,
      JArg.bool (configuration.flags == kOnlyInterceptStrings)]

/-- The overload `GraalObjectTemplate::SetHandler(const IndexedPropertyHandlerConfiguration&)`. -/
def SetHandler_IndexedPropertyHandlerConfiguration (isolate : GraalIsolate) (self : Ptr)
    (configuration : IndexedPropertyHandlerConfiguration) : GraalIsolate :=
  let java_data := configuration.data.map (GetJavaObject isolate)
  JNI_CALL_VOID isolate GraalAccessMethod.object_template_set_handler
    [JArg.object (some (GetJavaObject isolate self)), JArg.long (toJlong configuration.getter),
      JArg.long (toJlong configuration.setter), JArg.long (toJlong configuration.query),
      JArg.long (toJlong configuration.deleter), JArg.long (toJlong configuration.enumerator),
      JArg.object java_data, JArg.bool false, JArg.bool false]

/-- The function `GraalObjectTemplate::SetCallAsFunctionHandler`. -/
def SetCallAsFunctionHandler (isolate : GraalIsolate) (self : Ptr)
    (callback : FunctionPointer) (data : Local) : GraalIsolate :=
  let next := isolate.NextFunctionTemplateID
  let id := next.1
  let callback_ptr := toJlong callback
  let chosen : Ptr × GraalIsolate :=
    match data with
    | none => (next.2.GetUndefined, next.2)
    | some graal_data =>
      let copied := GraalHandleContent.Copy next.2 graal_data true
      (copied.1, GraalHandleContent.MakeWeak copied.2 copied.1)
  let graal_data := chosen.1
  let isolate1 := chosen.2.SetFunctionTemplateData id graal_data
  let isolate2 := isolate1.SetFunctionTemplateCallback id callback
  let java_data := GetJavaObject isolate2 graal_data
  JNI_CALL_VOID isolate2 GraalAccessMethod.object_template_set_call_as_function_handler
    [JArg.object (some (GetJavaObject isolate2 self)), JArg.int id, JArg.long callback_ptr,
      JArg.object (some java_data)]

end GraalObjectTemplate

/-! ## Reading the log -/

/-- The events a method added: what `after` logged beyond `before`. -/
def newEvents (before after : GraalIsolate) : List Event :=
  after.trace.drop before.trace.length

namespace Event

/-- Whether the event is a boundary call. -/
def isJni : Event → Bool
  | jni _ _ => true
  | _ => false

/-- Whether the event duplicates a wrapper. -/
def isCopy : Event → Bool
  | Copy _ _ _ => true
  | _ => false

/-- Whether the event duplicates the wrapper `p`. -/
def isCopyOf (p : Ptr) : Event → Bool
  | Copy src _ _ => src == p
  | _ => false

/-- Whether the event weakens a wrapper. -/
def isMakeWeak : Event → Bool
  | MakeWeak _ => true
  | _ => false

/-- Whether the event weakens the wrapper `p`. -/
def isMakeWeakOf (p : Ptr) : Event → Bool
  | MakeWeak q => q == p
  | _ => false

/-- Whether the event allocates a registry id. -/
def isNextFunctionTemplateID : Event → Bool
  | NextFunctionTemplateID _ => true
  | _ => false

/-- Whether the event stores a data handle in the registry. -/
def isSetFunctionTemplateData : Event → Bool
  | SetFunctionTemplateData _ _ => true
  | _ => false

/-- Whether the event stores a callback in the registry. -/
def isSetFunctionTemplateCallback : Event → Bool
  | SetFunctionTemplateCallback _ _ => true
  | _ => false

/-- Whether the event is a base `Set`. -/
def isSet : Event → Bool
  | Set _ _ _ _ => true
  | _ => false

/-- The positional argument `i` of a boundary call. -/
def argument (i : Nat) : Event → Option JArg
  | jni _ args => args[i]?
  | _ => none

/-- The opcode of a boundary call. -/
def method? : Event → Option GraalAccessMethod
  | jni m _ => some m
  | _ => none

end Event

/-- The most recent base `Set` in a log. -/
def lastSet (trace : List Event) : Option Event :=
  trace.reverse.find? Event.isSet

/-- An isolate to evaluate the methods on: wrapper `p` refers to the managed
object `100 + p`, ten wrappers are allocated, `undefined` is wrapper `0`. -/
def sampleIsolate : GraalIsolate where
  heap := fun p => { java_object := 100 + p, weak := false, internal_field_count_ := 0 }
  next_ptr := 10
  next_ref := 200
  function_template_count := 3
  function_template_data := fun _ => none
  function_template_callbacks := fun _ => none
  undefined_instance := 0
  internal_field_count_key := 1
  runtime := fun n _ _ => 1000 + n
  trace := []
  stderr := []

/-- The statement that a call `SetCallAsFunctionHandler(callback, data)` neither
duplicates nor weakens the isolate's shared undefined singleton. -/
def sparesUndefined (isolate : GraalIsolate) (self : Ptr) (callback : FunctionPointer)
    (data : Local) : Prop :=
  ∀ e ∈ newEvents isolate (GraalObjectTemplate.SetCallAsFunctionHandler isolate self callback data),
    e.isCopyOf isolate.GetUndefined = false ∧ e.isMakeWeakOf isolate.GetUndefined = false

/-! ## Theorems -/

/-- A method that appends `es` to the log added exactly the events `es`. -/
theorem newEvents_append (before after : GraalIsolate) (es : List Event)
    (h : after.trace = before.trace ++ es) : newEvents before after = es := by
  simp [newEvents, h]

open GraalObjectTemplate

/-- The log of `SetCallAsFunctionHandler` for an empty data handle. -/
theorem SetCallAsFunctionHandler_none_trace (isolate : GraalIsolate) (self : Ptr)
    (callback : FunctionPointer) :
    (SetCallAsFunctionHandler isolate self callback none).trace = isolate.trace ++
      [Event.NextFunctionTemplateID isolate.function_template_count,
        Event.SetFunctionTemplateData isolate.function_template_count isolate.undefined_instance,
        Event.SetFunctionTemplateCallback isolate.function_template_count callback,
        Event.jni GraalAccessMethod.object_template_set_call_as_function_handler
          [JArg.object (some (isolate.heap self).java_object),
            JArg.int isolate.function_template_count, JArg.long (toJlong callback),
            JArg.object (some (isolate.heap isolate.undefined_instance).java_object)]] := by
  simp [SetCallAsFunctionHandler, GraalIsolate.NextFunctionTemplateID,
    GraalIsolate.GetUndefined, GraalIsolate.SetFunctionTemplateData,
    GraalIsolate.SetFunctionTemplateCallback, JNI_CALL_VOID, GetJavaObject]

/-- The log of `SetCallAsFunctionHandler` for a non-empty data handle. -/
theorem SetCallAsFunctionHandler_some_trace (isolate : GraalIsolate) (self : Ptr)
    (callback : FunctionPointer) (d : Ptr) :
    (SetCallAsFunctionHandler isolate self callback (some d)).trace = isolate.trace ++
      [Event.NextFunctionTemplateID isolate.function_template_count,
        Event.Copy d true isolate.next_ptr,
        Event.MakeWeak isolate.next_ptr,
        Event.SetFunctionTemplateData isolate.function_template_count isolate.next_ptr,
        Event.SetFunctionTemplateCallback isolate.function_template_count callback,
        Event.jni GraalAccessMethod.object_template_set_call_as_function_handler
          [JArg.object (some (GetJavaObject
              (SetCallAsFunctionHandler isolate self callback (some d)) self)),
            JArg.int isolate.function_template_count, JArg.long (toJlong callback),
            JArg.object (some isolate.next_ref)]] := by
  simp [SetCallAsFunctionHandler, GraalIsolate.NextFunctionTemplateID,
    GraalIsolate.SetFunctionTemplateData, GraalHandleContent.Copy, GraalHandleContent.MakeWeak,
    GraalIsolate.SetFunctionTemplateCallback, JNI_CALL_VOID, GetJavaObject, writeHeap]

/-- C1: for every callback and isolate state, `SetCallAsFunctionHandler(cb, data)`
with an empty data handle leaves, under the id it allocated, exactly `cb` in the
callback store and the very wrapper returned by `GetUndefined` in the data
store; no event of the call is a `Copy` or a `MakeWeak`, and no wrapper is
allocated or changed. -/
theorem SetCallAsFunctionHandler_empty_data_registers_undefined (isolate : GraalIsolate)
    (self : Ptr) (cb : FunctionPointer) :
    (SetCallAsFunctionHandler isolate self cb none).function_template_callbacks
        isolate.NextFunctionTemplateID.1 = some cb ∧
      (SetCallAsFunctionHandler isolate self cb none).function_template_data
        isolate.NextFunctionTemplateID.1 = some isolate.GetUndefined ∧
      (∀ e ∈ newEvents isolate (SetCallAsFunctionHandler isolate self cb none),
        e.isCopy = false ∧ e.isMakeWeak = false) ∧
      newEvents isolate (SetCallAsFunctionHandler isolate self cb none) =
        [Event.NextFunctionTemplateID isolate.NextFunctionTemplateID.1,
          Event.SetFunctionTemplateData isolate.NextFunctionTemplateID.1 isolate.GetUndefined,
          Event.SetFunctionTemplateCallback isolate.NextFunctionTemplateID.1 cb,
          Event.jni GraalAccessMethod.object_template_set_call_as_function_handler
            [JArg.object (some (GetJavaObject isolate self)),
              JArg.int isolate.NextFunctionTemplateID.1, JArg.long (toJlong cb),
              JArg.object (some (GetJavaObject isolate isolate.GetUndefined))]] ∧
      (SetCallAsFunctionHandler isolate self cb none).heap = isolate.heap ∧
      (SetCallAsFunctionHandler isolate self cb none).next_ptr = isolate.next_ptr := by
  have ht := newEvents_append isolate _ _ (SetCallAsFunctionHandler_none_trace isolate self cb)
  refine ⟨?_, ?_, ?_, ?_, ?_, ?_⟩
  · simp [SetCallAsFunctionHandler, GraalIsolate.NextFunctionTemplateID,
      GraalIsolate.GetUndefined, GraalIsolate.SetFunctionTemplateData,
      GraalIsolate.SetFunctionTemplateCallback, JNI_CALL_VOID]
  · simp [SetCallAsFunctionHandler, GraalIsolate.NextFunctionTemplateID,
      GraalIsolate.GetUndefined, GraalIsolate.SetFunctionTemplateData,
      GraalIsolate.SetFunctionTemplateCallback, JNI_CALL_VOID]
  · rw [ht]
    intro e he
    simp only [List.mem_cons, List.mem_singleton, List.not_mem_nil, or_false] at he
    rcases he with rfl | rfl | rfl | rfl <;> exact ⟨rfl, rfl⟩
  · rw [ht]
    rfl
  · simp [SetCallAsFunctionHandler, GraalIsolate.NextFunctionTemplateID,
      GraalIsolate.GetUndefined, GraalIsolate.SetFunctionTemplateData,
      GraalIsolate.SetFunctionTemplateCallback, JNI_CALL_VOID]
  · simp [SetCallAsFunctionHandler, GraalIsolate.NextFunctionTemplateID,
      GraalIsolate.GetUndefined, GraalIsolate.SetFunctionTemplateData,
      GraalIsolate.SetFunctionTemplateCallback, JNI_CALL_VOID]

/-- C2: for every callback and every non-empty data handle `d` (an allocated
wrapper), `SetCallAsFunctionHandler(cb, d)` stores under the allocated id the
wrapper returned by `d.Copy(true)`, which is not `d`; `MakeWeak` is applied
exactly once, to that copy, which ends up weak; `d` itself is not changed (so
not weakened) and this call stores `d` under no id. -/
theorem SetCallAsFunctionHandler_data_copied_and_weakened (isolate : GraalIsolate)
    (self : Ptr) (cb : FunctionPointer) (d : Ptr) (hd : d < isolate.next_ptr) :
    (SetCallAsFunctionHandler isolate self cb (some d)).function_template_data
        isolate.NextFunctionTemplateID.1 =
        some (GraalHandleContent.Copy isolate.NextFunctionTemplateID.2 d true).1 ∧
      (GraalHandleContent.Copy isolate.NextFunctionTemplateID.2 d true).1 ≠ d ∧
      (newEvents isolate (SetCallAsFunctionHandler isolate self cb (some d))).filter Event.isCopy =
        [Event.Copy d true (GraalHandleContent.Copy isolate.NextFunctionTemplateID.2 d true).1] ∧
      (newEvents isolate (SetCallAsFunctionHandler isolate self cb (some d))).filter
          Event.isMakeWeak =
        [Event.MakeWeak (GraalHandleContent.Copy isolate.NextFunctionTemplateID.2 d true).1] ∧
      ((SetCallAsFunctionHandler isolate self cb (some d)).heap
        (GraalHandleContent.Copy isolate.NextFunctionTemplateID.2 d true).1).weak = true ∧
      (SetCallAsFunctionHandler isolate self cb (some d)).heap d = isolate.heap d ∧
      (newEvents isolate (SetCallAsFunctionHandler isolate self cb (some d))).filter
          Event.isSetFunctionTemplateData =
        [Event.SetFunctionTemplateData isolate.NextFunctionTemplateID.1
          (GraalHandleContent.Copy isolate.NextFunctionTemplateID.2 d true).1] ∧
      (∀ i, (SetCallAsFunctionHandler isolate self cb (some d)).function_template_data i = some d →
        isolate.function_template_data i = some d) := by
  have ht := newEvents_append isolate _ _ (SetCallAsFunctionHandler_some_trace isolate self cb d)
  have hne : isolate.next_ptr ≠ d := Nat.ne_of_gt hd
  have hne2 : d ≠ isolate.next_ptr := Nat.ne_of_lt hd
  refine ⟨?_, ?_, ?_, ?_, ?_, ?_, ?_, ?_⟩
  · simp [SetCallAsFunctionHandler, GraalIsolate.NextFunctionTemplateID,
      GraalIsolate.SetFunctionTemplateData, GraalHandleContent.Copy, GraalHandleContent.MakeWeak,
      GraalIsolate.SetFunctionTemplateCallback, JNI_CALL_VOID]
  · simpa [GraalHandleContent.Copy, GraalIsolate.NextFunctionTemplateID] using hne
  · rw [ht]
    simp [List.filter, Event.isCopy, GraalHandleContent.Copy, GraalIsolate.NextFunctionTemplateID]
  · rw [ht]
    simp [List.filter, Event.isMakeWeak, GraalHandleContent.Copy,
      GraalIsolate.NextFunctionTemplateID]
  · simp [SetCallAsFunctionHandler, GraalIsolate.NextFunctionTemplateID,
      GraalIsolate.SetFunctionTemplateData, GraalHandleContent.Copy, GraalHandleContent.MakeWeak,
      GraalIsolate.SetFunctionTemplateCallback, JNI_CALL_VOID, writeHeap]
  · simp [SetCallAsFunctionHandler, GraalIsolate.NextFunctionTemplateID,
      GraalIsolate.SetFunctionTemplateData, GraalHandleContent.Copy, GraalHandleContent.MakeWeak,
      GraalIsolate.SetFunctionTemplateCallback, JNI_CALL_VOID, writeHeap, hne2]
  · rw [ht]
    simp [List.filter, Event.isSetFunctionTemplateData, GraalHandleContent.Copy,
      GraalIsolate.NextFunctionTemplateID]
  · intro i hi
    simp only [SetCallAsFunctionHandler, GraalIsolate.NextFunctionTemplateID,
      GraalIsolate.SetFunctionTemplateData, GraalHandleContent.Copy, GraalHandleContent.MakeWeak,
      GraalIsolate.SetFunctionTemplateCallback, JNI_CALL_VOID] at hi
    by_cases hid : i = isolate.function_template_count
    · simp [hid, hne] at hi
    · simpa [hid] using hi

/-- Witness of C2 on the sample isolate, with the allocated wrapper `4` as data. -/
theorem SetCallAsFunctionHandler_data_copied_and_weakened_witness :
    (4 : Ptr) < sampleIsolate.next_ptr ∧
      (SetCallAsFunctionHandler sampleIsolate 2 77 (some 4)).function_template_data 3 = some 10 ∧
      ((SetCallAsFunctionHandler sampleIsolate 2 77 (some 4)).heap 10).weak = true ∧
      ((SetCallAsFunctionHandler sampleIsolate 2 77 (some 4)).heap 4).weak = false :=
  have h := SetCallAsFunctionHandler_data_copied_and_weakened sampleIsolate 2 77 4 (by decide)
  ⟨by decide, h.1, h.2.2.2.2.1, by rw [h.2.2.2.2.2.1]; rfl⟩

/-- C3: every call `SetCallAsFunctionHandler(cb, data)` allocates exactly one id
through `NextFunctionTemplateID`, stores a data handle and `cb` under that id
(one store each, no other id of either store changes), and ends with its only
boundary call, `object_template_set_call_as_function_handler`, carrying this
template, the id, `cb` as a 64-bit integer and the managed reference of the
data handle stored under the id. -/
theorem SetCallAsFunctionHandler_registers_then_calls (isolate : GraalIsolate)
    (self : Ptr) (cb : FunctionPointer) (data : Local) :
    (newEvents isolate (SetCallAsFunctionHandler isolate self cb data)).filter
        Event.isNextFunctionTemplateID =
        [Event.NextFunctionTemplateID isolate.NextFunctionTemplateID.1] ∧
      (SetCallAsFunctionHandler isolate self cb data).function_template_count =
        isolate.function_template_count + 1 ∧
      ∃ stored : Ptr,
        (SetCallAsFunctionHandler isolate self cb data).function_template_data
          isolate.NextFunctionTemplateID.1 = some stored ∧
        (SetCallAsFunctionHandler isolate self cb data).function_template_callbacks
          isolate.NextFunctionTemplateID.1 = some cb ∧
        (newEvents isolate (SetCallAsFunctionHandler isolate self cb data)).filter
          Event.isSetFunctionTemplateData =
          [Event.SetFunctionTemplateData isolate.NextFunctionTemplateID.1 stored] ∧
        (newEvents isolate (SetCallAsFunctionHandler isolate self cb data)).filter
          Event.isSetFunctionTemplateCallback =
          [Event.SetFunctionTemplateCallback isolate.NextFunctionTemplateID.1 cb] ∧
        (∀ i, i ≠ isolate.NextFunctionTemplateID.1 →
          (SetCallAsFunctionHandler isolate self cb data).function_template_data i =
            isolate.function_template_data i ∧
          (SetCallAsFunctionHandler isolate self cb data).function_template_callbacks i =
            isolate.function_template_callbacks i) ∧
        (newEvents isolate (SetCallAsFunctionHandler isolate self cb data)).filter Event.isJni =
          [Event.jni GraalAccessMethod.object_template_set_call_as_function_handler
            [JArg.object (some (GetJavaObject (SetCallAsFunctionHandler isolate self cb data) self)),
              JArg.int isolate.NextFunctionTemplateID.1, JArg.long (toJlong cb),
              JArg.object (some (GetJavaObject
                (SetCallAsFunctionHandler isolate self cb data) stored))]] ∧
        (newEvents isolate (SetCallAsFunctionHandler isolate self cb data)).getLast? =
          some (Event.jni GraalAccessMethod.object_template_set_call_as_function_handler
            [JArg.object (some (GetJavaObject (SetCallAsFunctionHandler isolate self cb data) self)),
              JArg.int isolate.NextFunctionTemplateID.1, JArg.long (toJlong cb),
              JArg.object (some (GetJavaObject
                (SetCallAsFunctionHandler isolate self cb data) stored))]) := by
  cases data with
  | none =>
    have ht := newEvents_append isolate _ _ (SetCallAsFunctionHandler_none_trace isolate self cb)
    rw [ht]
    refine ⟨by simp [List.filter, Event.isNextFunctionTemplateID,
      GraalIsolate.NextFunctionTemplateID], ?_, isolate.undefined_instance, ?_⟩
    · simp [SetCallAsFunctionHandler, GraalIsolate.NextFunctionTemplateID,
        GraalIsolate.GetUndefined, GraalIsolate.SetFunctionTemplateData,
        GraalIsolate.SetFunctionTemplateCallback, JNI_CALL_VOID]
    · refine ⟨?_, ?_, ?_, ?_, ?_, ?_, ?_⟩
      · simp [SetCallAsFunctionHandler, GraalIsolate.NextFunctionTemplateID,
          GraalIsolate.GetUndefined, GraalIsolate.SetFunctionTemplateData,
          GraalIsolate.SetFunctionTemplateCallback, JNI_CALL_VOID]
      · simp [SetCallAsFunctionHandler, GraalIsolate.NextFunctionTemplateID,
          GraalIsolate.GetUndefined, GraalIsolate.SetFunctionTemplateData,
          GraalIsolate.SetFunctionTemplateCallback, JNI_CALL_VOID]
      · simp [List.filter, Event.isSetFunctionTemplateData, GraalIsolate.NextFunctionTemplateID]
      · simp [List.filter, Event.isSetFunctionTemplateCallback,
          GraalIsolate.NextFunctionTemplateID]
      · intro i hi
        simp only [GraalIsolate.NextFunctionTemplateID] at hi
        simp [SetCallAsFunctionHandler, GraalIsolate.NextFunctionTemplateID,
          GraalIsolate.GetUndefined, GraalIsolate.SetFunctionTemplateData,
          GraalIsolate.SetFunctionTemplateCallback, JNI_CALL_VOID, hi]
      · simp [List.filter, Event.isJni, SetCallAsFunctionHandler,
          GraalIsolate.NextFunctionTemplateID,
          GraalIsolate.GetUndefined, GraalIsolate.SetFunctionTemplateData,
          GraalIsolate.SetFunctionTemplateCallback, JNI_CALL_VOID, GetJavaObject]
      · simp [SetCallAsFunctionHandler, GraalIsolate.NextFunctionTemplateID,
          GraalIsolate.GetUndefined, GraalIsolate.SetFunctionTemplateData,
          GraalIsolate.SetFunctionTemplateCallback, JNI_CALL_VOID, GetJavaObject]
  | some d =>
    have ht := newEvents_append isolate _ _ (SetCallAsFunctionHandler_some_trace isolate self cb d)
    rw [ht]
    refine ⟨by simp [List.filter, Event.isNextFunctionTemplateID,
      GraalIsolate.NextFunctionTemplateID], ?_, isolate.next_ptr, ?_⟩
    · simp [SetCallAsFunctionHandler, GraalIsolate.NextFunctionTemplateID,
        GraalIsolate.SetFunctionTemplateData, GraalHandleContent.Copy,
        GraalHandleContent.MakeWeak, GraalIsolate.SetFunctionTemplateCallback, JNI_CALL_VOID]
    · refine ⟨?_, ?_, ?_, ?_, ?_, ?_, ?_⟩
      · simp [SetCallAsFunctionHandler, GraalIsolate.NextFunctionTemplateID,
          GraalIsolate.SetFunctionTemplateData, GraalHandleContent.Copy,
          GraalHandleContent.MakeWeak, GraalIsolate.SetFunctionTemplateCallback, JNI_CALL_VOID]
      · simp [SetCallAsFunctionHandler, GraalIsolate.NextFunctionTemplateID,
          GraalIsolate.SetFunctionTemplateData, GraalHandleContent.Copy,
          GraalHandleContent.MakeWeak, GraalIsolate.SetFunctionTemplateCallback, JNI_CALL_VOID]
      · simp [List.filter, Event.isSetFunctionTemplateData, GraalIsolate.NextFunctionTemplateID]
      · simp [List.filter, Event.isSetFunctionTemplateCallback,
          GraalIsolate.NextFunctionTemplateID]
      · intro i hi
        simp only [GraalIsolate.NextFunctionTemplateID] at hi
        simp [SetCallAsFunctionHandler, GraalIsolate.NextFunctionTemplateID,
          GraalIsolate.SetFunctionTemplateData, GraalHandleContent.Copy,
          GraalHandleContent.MakeWeak, GraalIsolate.SetFunctionTemplateCallback,
          JNI_CALL_VOID, hi]
      · simp [List.filter, Event.isJni, SetCallAsFunctionHandler,
          GraalIsolate.NextFunctionTemplateID,
          GraalIsolate.SetFunctionTemplateData, GraalHandleContent.Copy,
          GraalHandleContent.MakeWeak, GraalIsolate.SetFunctionTemplateCallback,
          JNI_CALL_VOID, GetJavaObject, writeHeap]
      · simp [SetCallAsFunctionHandler, GraalIsolate.NextFunctionTemplateID,
          GraalIsolate.SetFunctionTemplateData, GraalHandleContent.Copy,
          GraalHandleContent.MakeWeak, GraalIsolate.SetFunctionTemplateCallback,
          JNI_CALL_VOID, GetJavaObject, writeHeap]

/-- C4, refuted as stated: on the sample isolate, passing a non-empty handle to
the undefined singleton as data makes `SetCallAsFunctionHandler` duplicate the
singleton. -/
theorem SetCallAsFunctionHandler_copies_undefined_handle :
    ¬ sparesUndefined sampleIsolate 2 77 (some sampleIsolate.GetUndefined) := by
  intro h
  have h1 := h (Event.Copy 0 true 10) (by decide)
  exact absurd h1.1 (by decide)

/-- C4, amended: `SetCallAsFunctionHandler` never weakens the isolate's shared
undefined singleton (an allocated wrapper) and leaves it unchanged, for every
data argument; with an empty data handle it performs no `Copy` at all, and
with a non-empty handle `d` it performs exactly one `Copy`, of `d`, and weakens
only the copy; so it duplicates the singleton exactly when the caller passes a
non-empty handle to the singleton itself. -/
theorem SetCallAsFunctionHandler_never_weakens_undefined (isolate : GraalIsolate)
    (self : Ptr) (cb : FunctionPointer) (data : Local)
    (hu : isolate.GetUndefined < isolate.next_ptr) :
    (∀ e ∈ newEvents isolate (SetCallAsFunctionHandler isolate self cb data),
        e.isMakeWeakOf isolate.GetUndefined = false) ∧
      (SetCallAsFunctionHandler isolate self cb data).heap isolate.GetUndefined =
        isolate.heap isolate.GetUndefined ∧
      (data = none →
        (newEvents isolate (SetCallAsFunctionHandler isolate self cb data)).filter
          Event.isCopy = []) ∧
      (∀ d, data = some d →
        (newEvents isolate (SetCallAsFunctionHandler isolate self cb data)).filter
            Event.isCopy = [Event.Copy d true isolate.next_ptr] ∧
          (newEvents isolate (SetCallAsFunctionHandler isolate self cb data)).filter
            Event.isMakeWeak = [Event.MakeWeak isolate.next_ptr]) ∧
      ((∃ e ∈ newEvents isolate (SetCallAsFunctionHandler isolate self cb data),
          e.isCopyOf isolate.GetUndefined = true) ↔ data = some isolate.GetUndefined) := by
  have hne : isolate.next_ptr ≠ isolate.undefined_instance := Nat.ne_of_gt hu
  have hne2 : isolate.undefined_instance ≠ isolate.next_ptr := Nat.ne_of_lt hu
  cases data with
  | none =>
    have ht := newEvents_append isolate _ _ (SetCallAsFunctionHandler_none_trace isolate self cb)
    rw [ht]
    refine ⟨?_, ?_, ?_, ?_, ?_⟩
    · intro e he
      simp only [List.mem_cons, List.mem_singleton, List.not_mem_nil, or_false] at he
      rcases he with rfl | rfl | rfl | rfl <;> rfl
    · simp [SetCallAsFunctionHandler, GraalIsolate.NextFunctionTemplateID,
        GraalIsolate.GetUndefined, GraalIsolate.SetFunctionTemplateData,
        GraalIsolate.SetFunctionTemplateCallback, JNI_CALL_VOID]
    · intro _
      simp [List.filter, Event.isCopy]
    · intro d hd
      cases hd
    · constructor
      · rintro ⟨e, he, hc⟩
        simp only [List.mem_cons, List.mem_singleton, List.not_mem_nil, or_false] at he
        rcases he with rfl | rfl | rfl | rfl <;> simp [Event.isCopyOf] at hc
      · intro h
        cases h
  | some d =>
    have ht := newEvents_append isolate _ _ (SetCallAsFunctionHandler_some_trace isolate self cb d)
    rw [ht]
    refine ⟨?_, ?_, ?_, ?_, ?_⟩
    · intro e he
      simp only [List.mem_cons, List.mem_singleton, List.not_mem_nil, or_false] at he
      rcases he with rfl | rfl | rfl | rfl | rfl | rfl <;>
        simp [Event.isMakeWeakOf, GraalIsolate.GetUndefined, hne]
    · simp [SetCallAsFunctionHandler, GraalIsolate.NextFunctionTemplateID,
        GraalIsolate.GetUndefined, GraalIsolate.SetFunctionTemplateData,
        GraalHandleContent.Copy, GraalHandleContent.MakeWeak,
        GraalIsolate.SetFunctionTemplateCallback, JNI_CALL_VOID, writeHeap, hne2]
    · intro h
      cases h
    · intro d2 hd
      cases hd
      simp [List.filter, Event.isCopy, Event.isMakeWeak]
    · constructor
      · rintro ⟨e, he, hc⟩
        simp only [List.mem_cons, List.mem_singleton, List.not_mem_nil, or_false] at he
        rcases he with rfl | rfl | rfl | rfl | rfl | rfl <;> simp [Event.isCopyOf] at hc
        rw [hc]
      · intro h
        cases h
        exact ⟨_, List.mem_cons_of_mem _ (List.mem_cons_self _ _), by simp [Event.isCopyOf]⟩

/-- Witness of the amended C4 on the sample isolate, with the undefined
singleton (wrapper `0`) itself as data. -/
theorem SetCallAsFunctionHandler_never_weakens_undefined_witness :
    sampleIsolate.GetUndefined < sampleIsolate.next_ptr ∧
      (∀ e ∈ newEvents sampleIsolate
          (SetCallAsFunctionHandler sampleIsolate 2 77 (some sampleIsolate.GetUndefined)),
        e.isMakeWeakOf sampleIsolate.GetUndefined = false) ∧
      (SetCallAsFunctionHandler sampleIsolate 2 77 (some sampleIsolate.GetUndefined)).heap
          sampleIsolate.GetUndefined = sampleIsolate.heap sampleIsolate.GetUndefined :=
  have h := SetCallAsFunctionHandler_never_weakens_undefined sampleIsolate 2 77
    (some sampleIsolate.GetUndefined) (by decide)
  ⟨by decide, h.1, h.2.1⟩

/-- C5, refuted as stated: on the sample isolate, with `kOnlyInterceptStrings = 4`
and a named configuration of flags `0` (so `onlyInterceptStrings` is false),
`SetNamedPropertyHandler` and `SetHandler` do not emit the same call. -/
theorem SetNamedPropertyHandler_call_differs_from_SetHandler :
    newEvents sampleIsolate (SetNamedPropertyHandler sampleIsolate 2 11 12 13 14 15 (some 4)) ≠
      newEvents sampleIsolate (SetHandler_NamedPropertyHandlerConfiguration 4 sampleIsolate 2
        { getter := 11, setter := 12, query := 13, deleter := 14, enumerator := 15,
          data := some 4, flags := 0 }) := by
  decide

/-- C5, amended: `SetNamedPropertyHandler(getter, setter, query, deleter,
enumerator, data)` emits exactly one boundary call, with the opcode
`object_template_set_named_property_handler` and the seven arguments (this
template, the five pointers as integers, the data reference or null); `SetHandler`
on the named configuration built from the same pointers and data with
`onlyInterceptStrings = false` emits exactly one call with the opcode
`object_template_set_handler`, whose arguments are those same seven followed
by `isNamed = true` and `onlyInterceptStrings = false`. -/
theorem SetNamedPropertyHandler_same_leading_arguments
    (kOnlyInterceptStrings : PropertyHandlerFlags) (isolate : GraalIsolate) (self : Ptr)
    (getter setter query deleter enumerator : FunctionPointer) (data : Local)
    (flags : PropertyHandlerFlags) (hflags : flags ≠ kOnlyInterceptStrings) :
    newEvents isolate (SetNamedPropertyHandler isolate self getter setter query deleter
        enumerator data) =
        [Event.jni GraalAccessMethod.object_template_set_named_property_handler
          [JArg.object (some (GetJavaObject isolate self)), JArg.long (toJlong getter),
            JArg.long (toJlong setter), JArg.long (toJlong query), JArg.long (toJlong deleter),
            JArg.long (toJlong enumerator), JArg.object (data.map (GetJavaObject isolate))]] ∧
      newEvents isolate (SetHandler_NamedPropertyHandlerConfiguration kOnlyInterceptStrings
        isolate self
        { getter := getter, setter := setter, query := query, deleter := deleter,
          enumerator := enumerator, data := data, flags := flags }) =
        [Event.jni GraalAccessMethod.object_template_set_handler
          ([JArg.object (some (GetJavaObject isolate self)), JArg.long (toJlong getter),
            JArg.long (toJlong setter), JArg.long (toJlong query), JArg.long (toJlong deleter),
            JArg.long (toJlong enumerator), JArg.object (data.map (GetJavaObject isolate))] ++
            [JArg.bool true, JArg.bool false])] := by
  constructor
  · apply newEvents_append
    simp [SetNamedPropertyHandler, JNI_CALL_VOID]
  · apply newEvents_append
    simp [SetHandler_NamedPropertyHandlerConfiguration, JNI_CALL_VOID, hflags]

/-- Witness of the amended C5 on the sample isolate with `kOnlyInterceptStrings = 4`
and flags `0`. -/
theorem SetNamedPropertyHandler_same_leading_arguments_witness :
    (0 : PropertyHandlerFlags) ≠ 4 ∧
      newEvents sampleIsolate (SetNamedPropertyHandler sampleIsolate 2 11 12 13 14 15 (some 4)) =
        [Event.jni GraalAccessMethod.object_template_set_named_property_handler
          [JArg.object (some 102), JArg.long (toJlong 11), JArg.long (toJlong 12),
            JArg.long (toJlong 13), JArg.long (toJlong 14), JArg.long (toJlong 15),
            JArg.object (some 104)]] :=
  ⟨by decide,
    (SetNamedPropertyHandler_same_leading_arguments 4 sampleIsolate 2 11 12 13 14 15 (some 4) 0
      (by decide)).1⟩

/-- C6: for every count (so for every `n ≥ 0`) and every template state,
`SetInternalFieldCount(n)` records `n` as the template's internal field count
and makes exactly one base `Set`, of the integer `n` under the isolate's
`InternalFieldCountKey` with the attribute `DontEnum`; after any sequence of
such calls ending with `n`, the recorded count is `n` and the last published
value is the integer `n` (overwrite, not accumulation). -/
theorem SetInternalFieldCount_records_and_publishes (DontEnum : PropertyAttribute)
    (isolate : GraalIsolate) (self : Ptr) (earlier : List Int) (n : Int) :
    ((SetInternalFieldCount DontEnum isolate self n).heap self).internal_field_count_ = n ∧
      newEvents isolate (SetInternalFieldCount DontEnum isolate self n) =
        [Event.Set self isolate.InternalFieldCountKey (V8Data.integer n) DontEnum] ∧
      (((earlier ++ [n]).foldl (fun s c => SetInternalFieldCount DontEnum s self c) isolate).heap
        self).internal_field_count_ = n ∧
      lastSet ((earlier ++ [n]).foldl (fun s c => SetInternalFieldCount DontEnum s self c)
        isolate).trace =
        some (Event.Set self isolate.InternalFieldCountKey (V8Data.integer n) DontEnum) := by
  have key : ∀ (l : List Int) (s : GraalIsolate),
      (l.foldl (fun s c => SetInternalFieldCount DontEnum s self c) s).internal_field_count_key =
        s.internal_field_count_key := by
    intro l
    induction l with
    | nil => intro s; rfl
    | cons c l ih =>
      intro s
      rw [List.foldl_cons, ih]
      rfl
  have step_trace : ∀ (s : GraalIsolate) (c : Int),
      (SetInternalFieldCount DontEnum s self c).trace =
        s.trace ++ [Event.Set self s.internal_field_count_key (V8Data.integer c) DontEnum] :=
    fun _ _ => rfl
  have step_count : ∀ (s : GraalIsolate) (c : Int),
      ((SetInternalFieldCount DontEnum s self c).heap self).internal_field_count_ = c := by
    intro s c
    simp [SetInternalFieldCount, GraalTemplate.Set, writeHeap]
  refine ⟨step_count _ _, newEvents_append _ _ _ (step_trace _ _), ?_, ?_⟩
  · rw [List.foldl_append]
    simp only [List.foldl_cons, List.foldl_nil]
    exact step_count _ _
  · rw [List.foldl_append]
    simp only [List.foldl_cons, List.foldl_nil, lastSet]
    rw [step_trace, key earlier isolate]
    simp [Event.isSet, GraalIsolate.InternalFieldCountKey]

/-- C7: for every name, getter, setter, optional data, access control,
attribute and optional signature, `SetAccessor` emits exactly one event, the
boundary call `object_template_set_accessor` carrying this template, the name,
the getter and the setter as integers, the data reference (of the isolate's
undefined sentinel when the data handle is empty, of the given data otherwise),
the signature reference (null when the signature is empty) and the attribute
bitmask; nothing else of the isolate changes.  Here `data.getD u` is the given
data when there is one and `u` otherwise, and `signature.map f` is null for an
empty signature. -/
theorem SetAccessor_emits_one_call (isolate : GraalIsolate) (self name : Ptr)
    (getter setter : FunctionPointer) (data : Local) (settings : AccessControl)
    (attr : PropertyAttribute) (signature : Local) :
    newEvents isolate
        (SetAccessor isolate self name getter setter data settings attr signature) =
        [Event.jni GraalAccessMethod.object_template_set_accessor
          [JArg.object (some (GetJavaObject isolate self)),
            JArg.object (some (GetJavaObject isolate name)),
            JArg.long (toJlong getter), JArg.long (toJlong setter),
            JArg.object (some (GetJavaObject isolate (data.getD isolate.GetUndefined))),
            JArg.object (signature.map (GetJavaObject isolate)), JArg.int attr]] ∧
      SetAccessor isolate self name getter setter data settings attr signature =
        { isolate with
          trace := (SetAccessor isolate self name getter setter data settings attr
            signature).trace } := by
  refine ⟨?_, rfl⟩
  apply newEvents_append
  cases data <;> simp [SetAccessor, JNI_CALL_VOID, Undefined]

/-- C8: for every isolate and every constructor argument, `ObjectTemplate::New`
returns a non-empty handle to a newly allocated wrapper that holds the
reference answered by its single boundary call `object_template_new` (made
without arguments), with internal field count 0; the constructor reaches
neither the call nor the wrapper (apart from the diagnostic channel the result
is the one for an empty constructor); the diagnostic is written exactly once
when the constructor is non-empty and not at all when it is empty. -/
theorem New_wraps_factory_reference (isolate : GraalIsolate) (constructor : Local) :
    (New isolate constructor).1 = some isolate.next_ptr ∧
      newEvents isolate (New isolate constructor).2 =
        [Event.jni GraalAccessMethod.object_template_new []] ∧
      (New isolate constructor).2.heap isolate.next_ptr =
        { java_object := (JNI_CALL isolate GraalAccessMethod.object_template_new []).1
          weak := false
          internal_field_count_ := 0 } ∧
      (New isolate constructor).2.next_ptr = isolate.next_ptr + 1 ∧
      (New isolate constructor).1 = (New isolate none).1 ∧
      { (New isolate constructor).2 with stderr := isolate.stderr } = (New isolate none).2 ∧
      (New isolate constructor).2.stderr =
        isolate.stderr ++ (if constructor.isSome then [constructorNotSupported] else []) ∧
      (New isolate none).2.stderr = isolate.stderr ∧
      (∀ c : Ptr, (New isolate (some c)).2.stderr = isolate.stderr ++ [constructorNotSupported]) := by
  refine ⟨?_, ?_, ?_, ?_, ?_, ?_, ?_, ?_, ?_⟩
  · cases constructor <;> rfl
  · apply newEvents_append
    cases constructor <;> rfl
  · cases constructor <;> simp [New, JNI_CALL, allocate, writeHeap, fprintf_stderr]
  · cases constructor <;> rfl
  · cases constructor <;> rfl
  · cases constructor <;> rfl
  · cases constructor <;> simp [New, JNI_CALL, allocate, fprintf_stderr]
  · rfl
  · intro c
    rfl

/-- C9: for every indexed configuration, whatever its flags, `SetHandler` emits
exactly one event, the boundary call `object_template_set_handler` with the
five pointers and the data reference of the configuration (null when the data
is empty), `isNamed = false` and `onlyInterceptStrings = false`; for every
named configuration `SetHandler` emits exactly one call with the same opcode
and `isNamed = true`; so a call of the named overload never equals a call of
the indexed overload. -/
theorem SetHandler_indexed_and_named_kinds (kOnlyInterceptStrings : PropertyHandlerFlags)
    (isolate other : GraalIsolate) (self self2 : Ptr)
    (indexed : IndexedPropertyHandlerConfiguration)
    (named : NamedPropertyHandlerConfiguration) :
    newEvents isolate (SetHandler_IndexedPropertyHandlerConfiguration isolate self indexed) =
        [Event.jni GraalAccessMethod.object_template_set_handler
          [JArg.object (some (GetJavaObject isolate self)), JArg.long (toJlong indexed.getter),
            JArg.long (toJlong indexed.setter), JArg.long (toJlong indexed.query),
            JArg.long (toJlong indexed.deleter), JArg.long (toJlong indexed.enumerator),
            JArg.object (indexed.data.map (GetJavaObject isolate)),
            JArg.bool false, JArg.bool false]] ∧
      (newEvents other (SetHandler_NamedPropertyHandlerConfiguration kOnlyInterceptStrings
          other self2 named)).map Event.method? =
        [some GraalAccessMethod.object_template_set_handler] ∧
      (newEvents other (SetHandler_NamedPropertyHandlerConfiguration kOnlyInterceptStrings
          other self2 named)).map (Event.argument 7) = [some (JArg.bool true)] ∧
      (newEvents isolate (SetHandler_IndexedPropertyHandlerConfiguration isolate self
          indexed)).map (Event.argument 7) = [some (JArg.bool false)] ∧
      newEvents other (SetHandler_NamedPropertyHandlerConfiguration kOnlyInterceptStrings
          other self2 named) ≠
        newEvents isolate (SetHandler_IndexedPropertyHandlerConfiguration isolate self indexed) := by
  have hi : newEvents isolate (SetHandler_IndexedPropertyHandlerConfiguration isolate self
      indexed) = _ :=
    newEvents_append isolate _ _ (by
      simp only [SetHandler_IndexedPropertyHandlerConfiguration, JNI_CALL_VOID]
      rfl)
  have hn : newEvents other (SetHandler_NamedPropertyHandlerConfiguration kOnlyInterceptStrings
      other self2 named) = _ :=
    newEvents_append other _ _ (by
      simp only [SetHandler_NamedPropertyHandlerConfiguration, JNI_CALL_VOID]
      rfl)
  refine ⟨?_, ?_, ?_, ?_, ?_⟩
  · rw [hi]
  · rw [hn]
    rfl
  · rw [hn]
    rfl
  · rw [hi]
    rfl
  · rw [hn, hi]
    simp

/-- C10: for every named configuration, the `onlyInterceptStrings` argument of the
call `SetHandler` emits is true if and only if the flags of the configuration
are exactly `kOnlyInterceptStrings`; for every other flags value it is false,
in particular for a bitmask that adds further bits to `kOnlyInterceptStrings`. -/
theorem SetHandler_named_onlyInterceptStrings_exact
    (kOnlyInterceptStrings : PropertyHandlerFlags) (isolate : GraalIsolate) (self : Ptr)
    (configuration : NamedPropertyHandlerConfiguration) :
    (newEvents isolate (SetHandler_NamedPropertyHandlerConfiguration kOnlyInterceptStrings
          isolate self configuration)).map (Event.argument 8) =
        [some (JArg.bool (decide (configuration.flags = kOnlyInterceptStrings)))] ∧
      ((newEvents isolate (SetHandler_NamedPropertyHandlerConfiguration kOnlyInterceptStrings
          isolate self configuration)).map (Event.argument 8) = [some (JArg.bool true)] ↔
        configuration.flags = kOnlyInterceptStrings) ∧
      (configuration.flags ≠ kOnlyInterceptStrings →
        (newEvents isolate (SetHandler_NamedPropertyHandlerConfiguration kOnlyInterceptStrings
          isolate self configuration)).map (Event.argument 8) = [some (JArg.bool false)]) ∧
      (∀ more : PropertyHandlerFlags, kOnlyInterceptStrings ||| more ≠ kOnlyInterceptStrings →
        (newEvents isolate (SetHandler_NamedPropertyHandlerConfiguration kOnlyInterceptStrings
          isolate self { configuration with flags := kOnlyInterceptStrings ||| more })).map
            (Event.argument 8) = [some (JArg.bool false)]) := by
  have hn : ∀ c : NamedPropertyHandlerConfiguration,
      (newEvents isolate (SetHandler_NamedPropertyHandlerConfiguration kOnlyInterceptStrings
        isolate self c)).map (Event.argument 8) =
        [some (JArg.bool (decide (c.flags = kOnlyInterceptStrings)))] := by
    intro c
    rw [newEvents_append isolate _ _ (by
      simp only [SetHandler_NamedPropertyHandlerConfiguration, JNI_CALL_VOID]
      rfl)]
    simp [Event.argument, beq_eq_decide]
  refine ⟨hn _, ?_, ?_, ?_⟩
  · rw [hn]
    simp
  · intro h
    rw [hn]
    simp [h]
  · intro more h
    rw [hn]
    simp [h]

/-- Witness of C10 with the values `kOnlyInterceptStrings = 4`, `kAllCanRead = 1`
and `kNonMasking = 2`: the combined masks `4 ||| 1` and `4 ||| 2` pass false. -/
theorem SetHandler_named_onlyInterceptStrings_exact_witness :
    ((4 : PropertyHandlerFlags) ||| 1 ≠ 4 ∧ (4 : PropertyHandlerFlags) ||| 2 ≠ 4) ∧
      (newEvents sampleIsolate (SetHandler_NamedPropertyHandlerConfiguration 4 sampleIsolate 2
          { getter := 11, setter := 12, query := 13, deleter := 14, enumerator := 15,
            data := none, flags := 4 ||| 1 })).map (Event.argument 8) =
        [some (JArg.bool false)] ∧
      (newEvents sampleIsolate (SetHandler_NamedPropertyHandlerConfiguration 4 sampleIsolate 2
          { getter := 11, setter := 12, query := 13, deleter := 14, enumerator := 15,
            data := none, flags := 4 ||| 2 })).map (Event.argument 8) =
        [some (JArg.bool false)] :=
  have h := SetHandler_named_onlyInterceptStrings_exact 4 sampleIsolate 2
    { getter := 11, setter := 12, query := 13, deleter := 14, enumerator := 15,
      data := none, flags := 0 }
  ⟨⟨by decide, by decide⟩, h.2.2.2 1 (by decide), h.2.2.2 2 (by decide)⟩

end Graal
